import Mathlib

/- Shallow embedding of the session initialization and wallet auto-connection
state machine of the minidev boilerplate: the useUser hook (src/src/hooks/useUser.ts)
and the connectWallet escape hatch of useFarcasterWallet (src/unnamed/part_000).
Asynchronous calls that can throw are modelled as a Res value; the per-attempt
external world (SDK results, wagmi state, mount status at the observation points)
is an Attempt record, and one run of the effect body is a pure function from an
Attempt to the list of state updates it issues plus its side effects. -/

namespace MiniDev

/-- Structured place reference on the Farcaster user profile (useUser.ts lines 37-40). -/
structure Location where
  placeId : Option String
  description : Option String
deriving DecidableEq

/-- Host-supplied identity profile (interface FarcasterUser, useUser.ts lines 31-41). -/
structure FarcasterUser where
  fid : Nat
  primaryAddress : Option String
  displayName : Option String
  username : Option String
  pfpUrl : Option String
  location : Option Location
deriving DecidableEq

/-- The SessionRecord the hook produces (interface UserData, useUser.ts lines 43-62). -/
structure UserData where
  address : Option String
  fid : Option Nat
  username : Option String
  displayName : Option String
  pfpUrl : Option String
  location : Option Location
  isMiniApp : Bool
  isLoading : Bool
  isWalletConnected : Bool
  error : Option String
deriving DecidableEq

/-- Initial state passed to useState (useUser.ts lines 65-69). -/
def initialUserData : UserData :=
  { address := none, fid := none, username := none, displayName := none,
    pfpUrl := none, location := none, isMiniApp := false, isLoading := true,
    isWalletConnected := false, error := none }

/-- Outcome of an awaited call that can throw. -/
inductive Res (α : Type) where
  | ok (a : α)
  | thrown
deriving DecidableEq

/-- JavaScript truthiness of an optional string: undefined and the empty string
are falsy, every other string is truthy. -/
def truthy : Option String → Bool
  | some s => decide (s ≠ "")
  | none => false

/-- JavaScript a || b on optional strings, as in useUser.ts line 110. -/
def jsOr (a b : Option String) : Option String :=
  if truthy a then a else b

/-- Outcome of the supplementary profile fetch sdk.quickAuth.fetch (useUser.ts
lines 94-105): the fetch or json step threw, the response was not ok, or it was
ok with an optional primaryAddress field. -/
inductive ApiResult where
  | fault
  | notOk
  | ok (primaryAddress : Option String)
deriving DecidableEq

/-- Address hint contributed by the API step: present only on an ok response
(useUser.ts lines 96-99, read at line 110). -/
def apiHint : ApiResult → Option String
  | .ok h => h
  | _ => none

/-- External inputs of one resolution attempt of initializeUser. The two mount
flags record the value of the isMounted liveness flag at the two distinct moments
the attempt could observe it: mountedAtGuard when the checks of lines 92, 150,
160, 171 and 182 run, and mountedAtCommit when the success commit of lines
136-149 runs, after the api and wallet awaits. The source reads isMounted only
at the guard moment. -/
structure Attempt where
  detect : Res Bool
  context : Res (Option FarcasterUser)
  api : ApiResult
  ethProvider : Option (Res (List String))
  hasFarcasterConnector : Bool
  wagmiIsConnected : Bool
  wagmiAddress : Option String
  mountedAtGuard : Bool
  mountedAtCommit : Bool
deriving DecidableEq

/-- One setUserData call: the functional update of line 80, or a full
replacement of the record. -/
inductive Update where
  | beginLoading
  | replace (u : UserData)
deriving DecidableEq

/-- Effect of one setUserData call on the state (useUser.ts line 80 and the
replacement call sites). -/
def applyUpdate (s : UserData) : Update → UserData
  | .beginLoading => { s with isLoading := true, error := none }
  | .replace u => u

/-- Record committed when the host context carries no user (useUser.ts lines 150-157). -/
def identityUnavailableRecord : UserData :=
  { address := none, fid := none, username := none, displayName := none,
    pfpUrl := none, location := none, isMiniApp := true, isLoading := false,
    isWalletConnected := false, error := some "Unable to get user data from Farcaster" }

/-- Record committed when sdk.context throws (useUser.ts lines 158-168). -/
def hostAuthFailedRecord : UserData :=
  { address := none, fid := none, username := none, displayName := none,
    pfpUrl := none, location := none, isMiniApp := true, isLoading := false,
    isWalletConnected := false, error := some "Farcaster authentication failed" }

/-- Record committed by the outer catch (useUser.ts lines 180-190). -/
def initFailedRecord : UserData :=
  { address := none, fid := none, username := none, displayName := none,
    pfpUrl := none, location := none, isMiniApp := false, isLoading := false,
    isWalletConnected := false, error := some "Failed to initialize user data" }

/-- Record committed by the standalone branch (useUser.ts lines 169-179):
address is the wagmi address when isConnected and the address are both truthy,
and isWalletConnected mirrors isConnected alone. -/
def standaloneRecord (isConnected : Bool) (walletAddress : Option String) : UserData :=
  { address := if isConnected && truthy walletAddress then walletAddress else none,
    fid := none, username := none, displayName := none, pfpUrl := none,
    location := none, isMiniApp := false, isLoading := false,
    isWalletConnected := isConnected, error := none }

/-- Record committed on the host success path (useUser.ts lines 136-146). -/
def hostSuccessRecord (u : FarcasterUser) (connectedAddress : Option String) : UserData :=
  { address := connectedAddress, fid := some u.fid, username := u.username,
    displayName := u.displayName, pfpUrl := u.pfpUrl, location := u.location,
    isMiniApp := true, isLoading := false,
    isWalletConnected := truthy connectedAddress, error := none }

/-- Result of the auto-connect block (useUser.ts lines 112-134): the address the
record will carry, whether eth_requestAccounts was issued, and whether the wagmi
connect call for the farcasterMiniApp connector was made. -/
structure WalletStep where
  connectedAddress : Option String
  requested : Bool
  wagmiConnectCalled : Bool
deriving DecidableEq

/-- Auto-connect block of useUser.ts lines 112-134. With no provider the hint
stands; a thrown request is caught and the hint stands; with accounts the first
account replaces the hint when the list is nonempty, and wagmi connect fires
when the connector exists and isConnected is false (line 126). -/
def walletStep (a : Attempt) (hint : Option String) : WalletStep :=
  match a.ethProvider with
  | none => ⟨hint, false, false⟩
  | some .thrown => ⟨hint, true, false⟩
  | some (.ok accounts) =>
    match accounts with
    | [] => ⟨hint, true, false⟩
    | addr :: _ => ⟨some addr, true, a.hasFarcasterConnector && !a.wagmiIsConnected⟩

/-- Observable outcome of one run of the effect body: the setUserData calls in
order, and whether sdk.actions.ready, eth_requestAccounts and the wagmi connect
were invoked. -/
structure RunResult where
  updates : List Update
  readySignaled : Bool
  providerRequested : Bool
  wagmiConnectCalled : Bool
deriving DecidableEq

/-- Faithful embedding of initializeUser (useUser.ts lines 78-191). Every path
first issues the line 80 loading update. The success path of lines 93-149 runs
whenever the guard of line 92 passed, with no further isMounted check before the
commit and the ready call; the mountedAtCommit flag is deliberately not consulted,
mirroring the source. -/
def initializeUser (a : Attempt) : RunResult :=
  match a.detect with
  | .thrown =>
    if a.mountedAtGuard then
      ⟨[.beginLoading, .replace initFailedRecord], false, false, false⟩
    else ⟨[.beginLoading], false, false, false⟩
  | .ok false =>
    if a.mountedAtGuard then
      ⟨[.beginLoading, .replace (standaloneRecord a.wagmiIsConnected a.wagmiAddress)],
        false, false, false⟩
    else ⟨[.beginLoading], false, false, false⟩
  | .ok true =>
    match a.context with
    | .thrown =>
      if a.mountedAtGuard then
        ⟨[.beginLoading, .replace hostAuthFailedRecord], false, false, false⟩
      else ⟨[.beginLoading], false, false, false⟩
    | .ok none =>
      if a.mountedAtGuard then
        ⟨[.beginLoading, .replace identityUnavailableRecord], false, false, false⟩
      else ⟨[.beginLoading], false, false, false⟩
    | .ok (some u) =>
      if a.mountedAtGuard then
        let hint := jsOr u.primaryAddress (apiHint a.api)
        let w := walletStep a hint
        ⟨[.beginLoading, .replace (hostSuccessRecord u w.connectedAddress)],
          true, w.requested, w.wagmiConnectCalled⟩
      else ⟨[.beginLoading], false, false, false⟩

/-- Final record of one attempt run from the initial state. -/
def finalRecord (a : Attempt) : UserData :=
  (initializeUser a).updates.foldl applyUpdate initialUserData

/-- An update is emittable when some attempt issues it. -/
def Emittable (upd : Update) : Prop :=
  ∃ a : Attempt, upd ∈ (initializeUser a).updates

/-- A record is reachable when it is the fold of some sequence of emittable
updates, in any order, over the initial state: this covers every interleaving of
updates across attempts, including late commits of superseded attempts. -/
def Reachable (r : UserData) : Prop :=
  ∃ trace : List Update, (∀ upd ∈ trace, Emittable upd) ∧
    r = trace.foldl applyUpdate initialUserData

/-- External inputs of one call of connectWallet (useFarcasterWallet,
src/unnamed/part_000 lines 50-111): the wagmi account state read by useAccount,
the outcome of sdk.isInMiniApp, the provider and its request outcome, and
whether the farcasterMiniApp connector exists in the registry. -/
structure ConnectEnv where
  isConnected : Bool
  address : Option String
  isInMiniApp : Res Bool
  ethProvider : Option (Res (List String))
  hasFarcasterConnector : Bool
deriving DecidableEq

/-- Observable outcome of one connectWallet call: the returned value, whether
eth_requestAccounts was issued, the last value passed to setError during the
call when setError was called at all, and whether wagmi connect was invoked. -/
structure ConnectResult where
  result : Option String
  providerRequested : Bool
  errorAction : Option (Option String)
  wagmiConnectCalled : Bool
deriving DecidableEq

/-- Faithful embedding of connectWallet (part_000 lines 56-111). When already
connected with a truthy address it returns that address at once, touching
neither the provider nor the error state. The thrown branch models the generic
catch of lines 105-110 with its fallback message. -/
def connectWallet (env : ConnectEnv) : ConnectResult :=
  if env.isConnected && truthy env.address then
    ⟨env.address, false, none, false⟩
  else
    match env.isInMiniApp with
    | .thrown => ⟨none, false, some (some "Failed to connect wallet"), false⟩
    | .ok false => ⟨none, false, some (some "Not running in a Farcaster miniapp"), false⟩
    | .ok true =>
      match env.ethProvider with
      | none => ⟨none, false, some (some "Farcaster wallet provider not available"), false⟩
      | some .thrown => ⟨none, true, some (some "Failed to connect wallet"), false⟩
      | some (.ok accounts) =>
        match accounts with
        | [] => ⟨none, true, some (some "No accounts returned from wallet"), false⟩
        | addr :: _ => ⟨some addr, true, some none, env.hasFarcasterConnector⟩

/-- Identity fields of the record are all absent. -/
def identityAbsent (r : UserData) : Prop :=
  r.fid = none ∧ r.username = none ∧ r.displayName = none ∧
  r.pfpUrl = none ∧ r.location = none

/-- Invariant preserved by every emittable update: a non-miniapp record carries
no identity fields, and a miniapp record with isWalletConnected set carries a
truthy address. -/
def sessionInv (r : UserData) : Prop :=
  (r.isMiniApp = false → identityAbsent r) ∧
  (r.isMiniApp = true → r.isWalletConnected = true → truthy r.address = true)

lemma sessionInv_initial : sessionInv initialUserData := by
  constructor
  · intro _; exact ⟨rfl, rfl, rfl, rfl, rfl⟩
  · intro h hw; simp [initialUserData] at hw

/-- Every full-replacement update issued by some attempt is one of the five
record shapes of the source. -/
lemma replace_emitted (a : Attempt) (u : UserData)
    (h : Update.replace u ∈ (initializeUser a).updates) :
    u = initFailedRecord ∨
    u = standaloneRecord a.wagmiIsConnected a.wagmiAddress ∨
    u = hostAuthFailedRecord ∨ u = identityUnavailableRecord ∨
    (∃ fu caddr, u = hostSuccessRecord fu caddr) := by
  rcases a with ⟨d, c, api, ep, hfc, wic, wa, mg, mc⟩
  rcases d with b | _
  · rcases b with _ | _
    · (cases mg <;> simp [initializeUser] at h); tauto
    · rcases c with cu | _
      · rcases cu with _ | fu
        · (cases mg <;> simp [initializeUser] at h); tauto
        · cases mg <;> simp [initializeUser] at h
          right; right; right; right; exact ⟨fu, _, h⟩
      · (cases mg <;> simp [initializeUser] at h); tauto
  · (cases mg <;> simp [initializeUser] at h); tauto

lemma sessionInv_step (s : UserData) (upd : Update) (hup : Emittable upd)
    (hs : sessionInv s) : sessionInv (applyUpdate s upd) := by
  rcases upd with _ | u
  · exact ⟨fun h => (hs.1 h), fun h hw => (hs.2 h hw)⟩
  · rcases hup with ⟨a, hmem⟩
    rcases replace_emitted a u hmem with h | h | h | h | ⟨fu, caddr, h⟩ <;> subst h
    · exact ⟨fun _ => ⟨rfl, rfl, rfl, rfl, rfl⟩,
        fun h _ => by simp [applyUpdate, initFailedRecord] at h⟩
    · refine ⟨fun _ => ⟨rfl, rfl, rfl, rfl, rfl⟩, fun h _ => ?_⟩
      simp [applyUpdate, standaloneRecord] at h
    · exact ⟨fun h => by simp [applyUpdate, hostAuthFailedRecord] at h,
        fun _ hw => by simp [applyUpdate, hostAuthFailedRecord] at hw⟩
    · exact ⟨fun h => by simp [applyUpdate, identityUnavailableRecord] at h,
        fun _ hw => by simp [applyUpdate, identityUnavailableRecord] at hw⟩
    · exact ⟨fun h => by simp [applyUpdate, hostSuccessRecord] at h,
        fun _ hw => hw⟩

lemma sessionInv_foldl (trace : List Update) (s : UserData) (hs : sessionInv s)
    (hall : ∀ upd ∈ trace, Emittable upd) :
    sessionInv (trace.foldl applyUpdate s) := by
  induction trace generalizing s with
  | nil => simpa using hs
  | cons u t ih =>
    simp only [List.foldl_cons]
    apply ih
    · exact sessionInv_step s u (hall u (by simp)) hs
    · intro v hv; exact hall v (by simp [hv])

lemma reachable_sessionInv (r : UserData) (h : Reachable r) : sessionInv r := by
  rcases h with ⟨trace, hall, rfl⟩
  exact sessionInv_foldl trace initialUserData sessionInv_initial hall

/-- Every final record of a single attempt is reachable. -/
lemma finalRecord_reachable (a : Attempt) : Reachable (finalRecord a) :=
  ⟨(initializeUser a).updates, fun _ hupd => ⟨a, hupd⟩, rfl⟩

/-- Host user of Scenario A: no primary address on the profile. -/
def userAlice : FarcasterUser :=
  { fid := 42, primaryAddress := none, displayName := some "Alice",
    username := some "alice", pfpUrl := none, location := none }

/-- Scenario A of the spec: host check true, identity without primary address,
backend fetch fails, wallet access returns one uppercase account. -/
def attemptA : Attempt :=
  { detect := .ok true,
    context := .ok (some userAlice),
    api := .fault,
    ethProvider := some (.ok ["0xABCDEF0123456789ABCDEF0123456789ABCDEF01"]),
    hasFarcasterConnector := true, wagmiIsConnected := false, wagmiAddress := none,
    mountedAtGuard := true, mountedAtCommit := true }

/-- Scenario B of the spec: host check true, identity fetch yields no user. -/
def attemptB : Attempt :=
  { detect := .ok true, context := .ok none, api := .fault, ethProvider := none,
    hasFarcasterConnector := false, wagmiIsConnected := false, wagmiAddress := none,
    mountedAtGuard := true, mountedAtCommit := true }

/-- C7: in host mode, when the host context carries no user, resolution ends
with the identity-unavailable error record: loading false, error set, identity
and address absent, no wallet access request issued, readiness never signaled. -/
theorem c7_identity_unavailable (a : Attempt)
    (hd : a.detect = Res.ok true) (hc : a.context = Res.ok none)
    (hm : a.mountedAtGuard = true) :
    finalRecord a = identityUnavailableRecord ∧
    (finalRecord a).isLoading = false ∧
    (finalRecord a).error = some "Unable to get user data from Farcaster" ∧
    (finalRecord a).fid = none ∧ (finalRecord a).address = none ∧
    (initializeUser a).readySignaled = false ∧
    (initializeUser a).providerRequested = false := by
  simp [finalRecord, initializeUser, hd, hc, hm, applyUpdate,
    identityUnavailableRecord, initialUserData]

/-- Witness for C7 at the Scenario B attempt. -/
theorem c7_witness :
    (attemptB.detect = Res.ok true ∧ attemptB.context = Res.ok none ∧
      attemptB.mountedAtGuard = true) ∧
    (finalRecord attemptB = identityUnavailableRecord ∧
      (finalRecord attemptB).isLoading = false ∧
      (finalRecord attemptB).error = some "Unable to get user data from Farcaster" ∧
      (finalRecord attemptB).fid = none ∧ (finalRecord attemptB).address = none ∧
      (initializeUser attemptB).readySignaled = false ∧
      (initializeUser attemptB).providerRequested = false) :=
  ⟨⟨rfl, rfl, rfl⟩, c7_identity_unavailable attemptB rfl rfl rfl⟩

/-- Wallet-call environment already connected with an address. -/
def connectEnvConnected : ConnectEnv :=
  { isConnected := true, address := some "0xaabbccddeeff00112233445566778899aabbccdd",
    isInMiniApp := .ok true, ethProvider := some (.ok []), hasFarcasterConnector := true }

/-- C8 amended: only the connectWallet escape hatch short-circuits when the
connected-state read reports connected with a truthy address, returning that
address at once with no provider request, no error-state change and no wagmi
connect call; the auto-connect block inside useUser issues eth_requestAccounts
unconditionally whenever the provider exists, even when the connected-state
read already reports connected with a truthy address. -/
theorem c8_amended_bridge_only (env : ConnectEnv) (a : Attempt)
    (u : FarcasterUser) (pr : Res (List String))
    (hconn : env.isConnected = true) (haddr : truthy env.address = true)
    (hd : a.detect = Res.ok true) (hc : a.context = Res.ok (some u))
    (hm : a.mountedAtGuard = true) (_hwc : a.wagmiIsConnected = true)
    (_hwa : truthy a.wagmiAddress = true) (hp : a.ethProvider = some pr) :
    ((connectWallet env).result = env.address ∧
      (connectWallet env).providerRequested = false ∧
      (connectWallet env).errorAction = none ∧
      (connectWallet env).wagmiConnectCalled = false) ∧
    (initializeUser a).providerRequested = true := by
  constructor
  · simp [connectWallet, hconn, haddr]
  · rcases pr with accounts | _
    · rcases accounts with _ | ⟨addr, rest⟩ <;>
        simp [initializeUser, hd, hc, hm, hp, walletStep]
    · simp [initializeUser, hd, hc, hm, hp, walletStep]

/-- Host user with a primary address hint, used by the reconnection attempt. -/
def userCarol : FarcasterUser :=
  { fid := 9, primaryAddress := none, displayName := some "Carol",
    username := some "carol", pfpUrl := none, location := none }

/-- Attempt modelling the effect re-run after a first successful connect: the
wagmi account state already reports connected with an address, and the
auto-connect block of useUser runs again. -/
def attemptReconnected : Attempt :=
  { detect := .ok true, context := .ok (some userCarol), api := .notOk,
    ethProvider := some (.ok ["0x00112233445566778899aabbccddeeff00112233"]),
    hasFarcasterConnector := true, wagmiIsConnected := true,
    wagmiAddress := some "0x00112233445566778899aabbccddeeff00112233",
    mountedAtGuard := true, mountedAtCommit := true }

/-- C8 counterexample: at the useUser auto-connect call site the wallet access
request is issued although the connected-state read already reports connected
with a truthy address, so the claimed short-circuit does not hold for every
call of the wallet access request. -/
theorem c8_counterexample :
    attemptReconnected.wagmiIsConnected = true ∧
    truthy attemptReconnected.wagmiAddress = true ∧
    (initializeUser attemptReconnected).providerRequested = true :=
  ⟨rfl, by decide, rfl⟩

/-- Witness for the amended C8 at a connected environment and the reconnection
attempt. -/
theorem c8_amended_witness :
    (connectEnvConnected.isConnected = true ∧
      truthy connectEnvConnected.address = true ∧
      attemptReconnected.detect = Res.ok true ∧
      attemptReconnected.context = Res.ok (some userCarol) ∧
      attemptReconnected.mountedAtGuard = true ∧
      attemptReconnected.wagmiIsConnected = true ∧
      truthy attemptReconnected.wagmiAddress = true ∧
      attemptReconnected.ethProvider =
        some (Res.ok ["0x00112233445566778899aabbccddeeff00112233"])) ∧
    (((connectWallet connectEnvConnected).result = connectEnvConnected.address ∧
      (connectWallet connectEnvConnected).providerRequested = false ∧
      (connectWallet connectEnvConnected).errorAction = none ∧
      (connectWallet connectEnvConnected).wagmiConnectCalled = false) ∧
    (initializeUser attemptReconnected).providerRequested = true) :=
  ⟨⟨rfl, by decide, rfl, rfl, rfl, rfl, by decide, rfl⟩,
    c8_amended_bridge_only connectEnvConnected attemptReconnected userCarol
      (Res.ok ["0x00112233445566778899aabbccddeeff00112233"])
      rfl (by decide) rfl rfl rfl rfl (by decide) rfl⟩

/-- C3 counterexample: at the Scenario A inputs the committed address is the
uppercase string exactly as the provider returned it, not its lowercase form. -/
theorem c3_counterexample :
    (finalRecord attemptA).address = some "0xABCDEF0123456789ABCDEF0123456789ABCDEF01" ∧
    (finalRecord attemptA).address ≠ some "0xabcdef0123456789abcdef0123456789abcdef01" := by
  constructor
  · rfl
  · decide

/-- C3 amended: the address of the final record is stored verbatim as supplied
by the wallet provider: when the access request returns a nonempty account list
the record stores its first element unchanged, with no case normalization. -/
theorem c3_amended_verbatim (a : Attempt) (u : FarcasterUser)
    (addr : String) (rest : List String)
    (hd : a.detect = Res.ok true) (hc : a.context = Res.ok (some u))
    (hm : a.mountedAtGuard = true)
    (hp : a.ethProvider = some (Res.ok (addr :: rest))) :
    (finalRecord a).address = some addr := by
  simp [finalRecord, initializeUser, hd, hc, hm, hp, walletStep,
    hostSuccessRecord, applyUpdate]

/-- Witness for the amended C3 at the Scenario A attempt. -/
theorem c3_amended_witness :
    (attemptA.detect = Res.ok true ∧
      attemptA.ethProvider =
        some (Res.ok ["0xABCDEF0123456789ABCDEF0123456789ABCDEF01"]) ∧
      attemptA.mountedAtGuard = true) ∧
    (finalRecord attemptA).address = some "0xABCDEF0123456789ABCDEF0123456789ABCDEF01" :=
  ⟨⟨rfl, rfl, rfl⟩,
    c3_amended_verbatim attemptA userAlice
      "0xABCDEF0123456789ABCDEF0123456789ABCDEF01" [] rfl rfl rfl rfl⟩

/-- Attempt whose environment detection call throws while the wagmi signal
reports a connected wallet with an address. -/
def attemptDetectFault : Attempt :=
  { detect := .thrown, context := .ok none, api := .fault, ethProvider := none,
    hasFarcasterConnector := false, wagmiIsConnected := true,
    wagmiAddress := some "0x1234567890123456789012345678901234567890",
    mountedAtGuard := true, mountedAtCommit := true }

/-- C4 counterexample: when the detector call throws, the final record carries
the terminal initialization-failed error and ignores the wallet signal entirely,
even though the wagmi signal reports a connected wallet with an address. -/
theorem c4_counterexample :
    attemptDetectFault.detect = Res.thrown ∧
    attemptDetectFault.wagmiIsConnected = true ∧
    attemptDetectFault.wagmiAddress =
      some "0x1234567890123456789012345678901234567890" ∧
    (finalRecord attemptDetectFault).error = some "Failed to initialize user data" ∧
    (finalRecord attemptDetectFault).address = none ∧
    (finalRecord attemptDetectFault).isWalletConnected = false ∧
    (finalRecord attemptDetectFault).isLoading = false :=
  ⟨rfl, rfl, rfl, rfl, rfl, rfl, rfl⟩

/-- C4 amended: when the detector call throws, resolution terminates in the
terminal generic initialization-failure state: error set to the catch-all
message, loading false, wallet signal unused (address absent, walletConnected
false), and readiness never signaled. -/
theorem c4_amended_terminal (a : Attempt)
    (hd : a.detect = Res.thrown) (hm : a.mountedAtGuard = true) :
    finalRecord a = initFailedRecord ∧
    (finalRecord a).error = some "Failed to initialize user data" ∧
    (finalRecord a).isLoading = false ∧
    (finalRecord a).address = none ∧
    (finalRecord a).isWalletConnected = false ∧
    (initializeUser a).readySignaled = false := by
  simp [finalRecord, initializeUser, hd, hm, applyUpdate, initFailedRecord,
    initialUserData]

/-- Witness for the amended C4 at the detector-fault attempt. -/
theorem c4_amended_witness :
    (attemptDetectFault.detect = Res.thrown ∧
      attemptDetectFault.mountedAtGuard = true) ∧
    (finalRecord attemptDetectFault = initFailedRecord ∧
      (finalRecord attemptDetectFault).error = some "Failed to initialize user data" ∧
      (finalRecord attemptDetectFault).isLoading = false ∧
      (finalRecord attemptDetectFault).address = none ∧
      (finalRecord attemptDetectFault).isWalletConnected = false ∧
      (initializeUser attemptDetectFault).readySignaled = false) :=
  ⟨⟨rfl, rfl⟩, c4_amended_terminal attemptDetectFault rfl rfl⟩

/-- Scenario D of the spec: host check true, identity succeeds with no address
hint, the wallet access request throws a transport fault. -/
def attemptD : Attempt :=
  { detect := .ok true, context := .ok (some userAlice), api := .notOk,
    ethProvider := some .thrown,
    hasFarcasterConnector := true, wagmiIsConnected := false, wagmiAddress := none,
    mountedAtGuard := true, mountedAtCommit := true }

/-- C5 counterexample: at the Scenario D inputs the wallet access request threw,
yet the final record carries no error at all: the transport fault is absorbed
and never surfaced as a field. -/
theorem c5_counterexample :
    attemptD.ethProvider = some Res.thrown ∧
    (finalRecord attemptD).error = none ∧
    (finalRecord attemptD).fid = some 42 ∧
    (finalRecord attemptD).address = none ∧
    (finalRecord attemptD).isWalletConnected = false ∧
    (initializeUser attemptD).readySignaled = true :=
  ⟨rfl, rfl, rfl, rfl, rfl, rfl⟩

/-- C5 amended: in host mode, when the identity fetch succeeds without an
address hint and the wallet access request throws a transport fault, the final
record has identity populated, address absent, walletConnected false, loading
false, and the error field left unset: the fault is absorbed and only logged,
while readiness is still signaled. -/
theorem c5_amended_fault_absorbed (a : Attempt) (u : FarcasterUser)
    (hd : a.detect = Res.ok true) (hc : a.context = Res.ok (some u))
    (hm : a.mountedAtGuard = true) (hpa : u.primaryAddress = none)
    (hapi : apiHint a.api = none) (hp : a.ethProvider = some Res.thrown) :
    (finalRecord a).fid = some u.fid ∧
    (finalRecord a).username = u.username ∧
    (finalRecord a).displayName = u.displayName ∧
    (finalRecord a).address = none ∧
    (finalRecord a).isWalletConnected = false ∧
    (finalRecord a).error = none ∧
    (finalRecord a).isLoading = false ∧
    (initializeUser a).readySignaled = true := by
  simp [finalRecord, initializeUser, hd, hc, hm, hp, walletStep, jsOr, hpa,
    hapi, truthy, hostSuccessRecord, applyUpdate]

/-- Witness for the amended C5 at the Scenario D attempt. -/
theorem c5_amended_witness :
    (attemptD.detect = Res.ok true ∧ attemptD.context = Res.ok (some userAlice) ∧
      attemptD.mountedAtGuard = true ∧ userAlice.primaryAddress = none ∧
      apiHint attemptD.api = none ∧ attemptD.ethProvider = some Res.thrown) ∧
    ((finalRecord attemptD).fid = some userAlice.fid ∧
      (finalRecord attemptD).username = userAlice.username ∧
      (finalRecord attemptD).displayName = userAlice.displayName ∧
      (finalRecord attemptD).address = none ∧
      (finalRecord attemptD).isWalletConnected = false ∧
      (finalRecord attemptD).error = none ∧
      (finalRecord attemptD).isLoading = false ∧
      (initializeUser attemptD).readySignaled = true) :=
  ⟨⟨rfl, rfl, rfl, rfl, rfl, rfl⟩,
    c5_amended_fault_absorbed attemptD userAlice rfl rfl rfl rfl rfl rfl⟩

/-- C10: in host mode, an address hint from the host profile or the backend
profile alone makes the final record carry that hint as address with
walletConnected true, even when the live wallet access request throws or
returns zero accounts; no wagmi connect call is ever made on those paths. -/
theorem c10_hint_sufficient (a : Attempt) (u : FarcasterUser)
    (hd : a.detect = Res.ok true) (hc : a.context = Res.ok (some u))
    (hm : a.mountedAtGuard = true)
    (hhint : truthy (jsOr u.primaryAddress (apiHint a.api)) = true)
    (hp : a.ethProvider = some Res.thrown ∨ a.ethProvider = some (Res.ok [])) :
    (finalRecord a).address = jsOr u.primaryAddress (apiHint a.api) ∧
    (finalRecord a).isWalletConnected = true ∧
    (initializeUser a).providerRequested = true ∧
    (initializeUser a).wagmiConnectCalled = false := by
  rcases hp with hp | hp <;>
    simp [finalRecord, initializeUser, hd, hc, hm, hp, walletStep, hhint,
      hostSuccessRecord, applyUpdate]

/-- Host user carrying a primary address hint. -/
def userBob : FarcasterUser :=
  { fid := 7, primaryAddress := some "0x00112233445566778899aabbccddeeff00112233",
    displayName := some "Bob", username := some "bob",
    pfpUrl := none, location := none }

/-- Attempt where the host profile supplies an address hint and the wallet
access request throws. -/
def attemptHint : Attempt :=
  { detect := .ok true, context := .ok (some userBob), api := .notOk,
    ethProvider := some .thrown,
    hasFarcasterConnector := true, wagmiIsConnected := false, wagmiAddress := none,
    mountedAtGuard := true, mountedAtCommit := true }

/-- Witness for C10 at the hinted attempt. -/
theorem c10_witness :
    (attemptHint.detect = Res.ok true ∧
      attemptHint.context = Res.ok (some userBob) ∧
      attemptHint.mountedAtGuard = true ∧
      truthy (jsOr userBob.primaryAddress (apiHint attemptHint.api)) = true ∧
      attemptHint.ethProvider = some Res.thrown) ∧
    ((finalRecord attemptHint).address =
        jsOr userBob.primaryAddress (apiHint attemptHint.api) ∧
      (finalRecord attemptHint).isWalletConnected = true ∧
      (initializeUser attemptHint).providerRequested = true ∧
      (initializeUser attemptHint).wagmiConnectCalled = false) :=
  ⟨⟨rfl, rfl, rfl, by decide, rfl⟩,
    c10_hint_sufficient attemptHint userBob rfl rfl rfl (by decide) (Or.inl rfl)⟩

/-- Attempt superseded during the api and wallet awaits: the guard of line 92
passed while mounted, the component unmounted before the commit point. -/
def supersededAttempt : Attempt :=
  { detect := .ok true, context := .ok (some userBob), api := .notOk,
    ethProvider := some (.ok ["0x00112233445566778899aabbccddeeff00112233"]),
    hasFarcasterConnector := true, wagmiIsConnected := false, wagmiAddress := none,
    mountedAtGuard := true, mountedAtCommit := false }

/-- C1: the readiness signal still fires for an attempt that was superseded
after the line 92 guard but before the commit point: the run reports
readySignaled true although the liveness flag was already false when the commit
and the ready call executed, because the source never rereads isMounted after
the api and wallet awaits. -/
theorem c1_ready_after_supersession :
    supersededAttempt.mountedAtGuard = true ∧
    supersededAttempt.mountedAtCommit = false ∧
    (initializeUser supersededAttempt).readySignaled = true :=
  ⟨rfl, rfl, rfl⟩

/-- Record the superseded attempt commits late. -/
def staleRecord : UserData :=
  hostSuccessRecord userBob (some "0x00112233445566778899aabbccddeeff00112233")

/-- Fresh standalone attempt that replaces the superseded one. -/
def freshAttempt : Attempt :=
  { detect := .ok false, context := .ok none, api := .fault, ethProvider := none,
    hasFarcasterConnector := false, wagmiIsConnected := false, wagmiAddress := none,
    mountedAtGuard := true, mountedAtCommit := true }

/-- C2: a superseded attempt still emits its full success commit although its
liveness flag was already false at commit time, and applying that late commit
on top of the fresh attempt record mutates it into the stale record: fields of
the dead attempt replace the record of the live one. -/
theorem c2_stale_commit_mutates :
    supersededAttempt.mountedAtCommit = false ∧
    (initializeUser supersededAttempt).updates =
      [Update.beginLoading, Update.replace staleRecord] ∧
    applyUpdate (finalRecord freshAttempt) (Update.replace staleRecord) ≠
      finalRecord freshAttempt ∧
    applyUpdate (finalRecord freshAttempt) (Update.replace staleRecord) =
      staleRecord := by
  refine ⟨rfl, rfl, ?_, rfl⟩
  decide

/-- Standalone attempt whose connector reports connected while the address read
is absent. -/
def attemptStandaloneGhost : Attempt :=
  { detect := .ok false, context := .ok none, api := .fault, ethProvider := none,
    hasFarcasterConnector := false, wagmiIsConnected := true, wagmiAddress := none,
    mountedAtGuard := true, mountedAtCommit := true }

/-- C6 counterexample: a reachable final record with walletConnected true and
address absent, produced by the standalone branch when the wagmi connected flag
is set while the address read is undefined; the claimed implication from
walletConnected to a well-formed address fails there. -/
theorem c6_counterexample :
    Reachable (finalRecord attemptStandaloneGhost) ∧
    (finalRecord attemptStandaloneGhost).isWalletConnected = true ∧
    (finalRecord attemptStandaloneGhost).address = none :=
  ⟨finalRecord_reachable attemptStandaloneGhost, rfl, rfl⟩

/-- C6 amended: for every reachable record, walletConnected true guarantees a
present nonempty address only in host mode: miniapp records with walletConnected
true carry some nonempty address string (never validated against the 40-hex
pattern), while standalone records mirror the wagmi connected flag and may have
walletConnected true with address absent. -/
theorem c6_amended_host_nonempty (r : UserData) (hr : Reachable r)
    (hm : r.isMiniApp = true) (hw : r.isWalletConnected = true) :
    ∃ s, r.address = some s ∧ s ≠ "" := by
  have h := (reachable_sessionInv r hr).2 hm hw
  cases haddr : r.address with
  | none => rw [haddr] at h; simp [truthy] at h
  | some s =>
    rw [haddr] at h
    simp [truthy] at h
    exact ⟨s, rfl, h⟩

/-- Witness for the amended C6 at the reachable Scenario A final record. -/
theorem c6_amended_witness :
    Reachable (finalRecord attemptA) ∧
    (finalRecord attemptA).isMiniApp = true ∧
    (finalRecord attemptA).isWalletConnected = true ∧
    (∃ s, (finalRecord attemptA).address = some s ∧ s ≠ "") :=
  ⟨finalRecord_reachable attemptA, rfl, rfl,
    c6_amended_host_nonempty (finalRecord attemptA)
      (finalRecord_reachable attemptA) rfl rfl⟩

/-- C9: for every reachable record, a standalone environment means every
identity field is absent: fid, username, displayName, pfpUrl and location are
all none whenever isMiniApp is false. -/
theorem c9_standalone_identity_absent (r : UserData) (hr : Reachable r)
    (hm : r.isMiniApp = false) :
    r.fid = none ∧ r.username = none ∧ r.displayName = none ∧
    r.pfpUrl = none ∧ r.location = none :=
  (reachable_sessionInv r hr).1 hm

/-- Witness for C9 at the initial record, reachable through the empty trace. -/
theorem c9_witness :
    Reachable initialUserData ∧ initialUserData.isMiniApp = false ∧
    (initialUserData.fid = none ∧ initialUserData.username = none ∧
      initialUserData.displayName = none ∧ initialUserData.pfpUrl = none ∧
      initialUserData.location = none) := by
  have hr : Reachable initialUserData := ⟨[], by simp, rfl⟩
  exact ⟨hr, rfl, c9_standalone_identity_absent initialUserData hr rfl⟩

end MiniDev
